import Mathlib

/-!
# Verification of the tool-calling evaluation harness

A shallow embedding, in Lean 4, of the core of the repository: the simulated
environment (`EnvState`), the six registry tools (`src/tools.py`), the harness
dispatcher and environment builder (`src/harness.py`), and the scoring engine
(`src/scoring.py`).  Python dictionaries are modelled as association lists with
Python's `dict` update semantics (`dictSet`); Python floats as rationals; the
wall clock (`time.time()`) and the seeded pseudo-random generator
(`random.Random(hash(key) ^ seed).uniform(lo, hi)`) as explicit function
parameters, each a fixed deterministic function of what the source feeds it.
Theorems below settle the specification's claims against these definitions.
-/

/-! ## Python `dict` model: association lists with insert-or-overwrite -/

/-- Lookup in a Python-`dict`-like association list (`d[k]` / `k in d`). -/
def dictGet {κ α : Type} [DecidableEq κ] : List (κ × α) → κ → Option α
  | [], _ => none
  | (k2, v) :: rest, k => if k = k2 then some v else dictGet rest k

/-- Python `d[k] = v`: overwrite the entry in place when the key is present,
append it otherwise (insertion order is kept, as in a Python `dict`). -/
def dictSet {κ α : Type} [DecidableEq κ] (l : List (κ × α)) (k : κ) (v : α) :
    List (κ × α) :=
  if (dictGet l k).isSome then
    l.map (fun p => if p.1 = k then (k, v) else p)
  else l ++ [(k, v)]

/-- How many entries of the list carry key `k`. -/
def countKey {κ α : Type} [DecidableEq κ] (l : List (κ × α)) (k : κ) : Nat :=
  (l.filter (fun p => decide (p.1 = k))).length

/-- Does `pat` occur at the head of the character list? -/
def charsAt : List Char → List Char → Bool
  | [], _ => true
  | _ :: _, [] => false
  | p :: ps, c :: cs => p == c && charsAt ps cs

/-- Does `pat` occur anywhere in the character list? -/
def charsContain (pat : List Char) : List Char → Bool
  | [] => pat.isEmpty
  | c :: cs => charsAt pat (c :: cs) || charsContain pat cs

/-- Python `pat in msg` on strings (substring containment). -/
def strContains (pat msg : String) : Bool :=
  charsContain pat.toList msg.toList

/-! ## Data model (`src/tools.py`: `Deployment`, `Ticket`, `EnvState`, `ToolResult`) -/

/-- A JSON-ish Python value, as found in tool arguments and result payloads
(the harness parses arguments from JSON: strings, ints, bools, floats). -/
inductive PyValue where
  | str (s : String)
  | int (n : Int)
  | bool (b : Bool)
  | num (q : ℚ)
deriving DecidableEq

/-- `Deployment(service, namespace, replicas, restarted_at)`; the `namespace`
field is spelt `nspace` because `namespace` is a Lean keyword.  `replicas` is
a rational: Python stores whatever number the scale call carried (int, bool
or float — a Python bool is an int), and every later use of the field is
numeric (comparisons and arithmetic). -/
structure Deployment where
  service : String
  nspace : String
  replicas : ℚ
  restarted_at : Option ℚ
deriving DecidableEq

/-- `Ticket(status, note)`; the source documents `status` as one of
`open|investigating|mitigated|resolved`.  `note` holds an arbitrary value:
`ticket_update` assigns the argument unvalidated (pydantic does not validate
assignment), so a dispatched call can store a non-string note. -/
structure Ticket where
  status : String
  note : PyValue
deriving DecidableEq

/-- One entry of `env.incident_log`: `{"ts": ..., "severity": ..., "message": ...}`. -/
structure LogEntry where
  ts : ℚ
  severity : String
  message : String
deriving DecidableEq

/-- `EnvState`: deployments keyed by `(service, namespace)`, feature flags,
the singleton ticket, the append-only incident log, and the RNG seed.
The feature-flag mapping is value-to-value: `feature_flag_set` stores its
`flag` and `enabled` arguments as-is, whatever their types. -/
structure EnvState where
  deployments : List ((String × String) × Deployment) := []
  feature_flags : List (PyValue × PyValue) := []
  ticket : Ticket := ⟨"open", .str ""⟩
  incident_log : List LogEntry := []
  seed : Int := 42
deriving DecidableEq

/-- `ToolResult(ok, data, error)`. -/
structure ToolResult where
  ok : Bool
  data : Option (List (String × PyValue)) := none
  error : Option String := none
deriving DecidableEq

/-! ## The six registry tools (`src/tools.py`)

Each tool returns the `ToolResult` together with the environment after its
effect (the Python functions mutate `env` in place).  `uniform seed key lo hi`
stands for `random.Random(hash(key) ^ seed).uniform(lo, hi)`: a fixed,
deterministic function of the environment seed, the key string and the bounds,
which is exactly what the source's `_rng` construction guarantees within one
interpreter. `now` stands for `time.time()` at the moment of the call. -/

/-- `metrics_query(env, service, metric, minutes, namespace)`. -/
def metrics_query (uniform : Int → String → ℚ → ℚ → ℚ) (env : EnvState)
    (service metric : String) (minutes : Int) (ns : String) :
    ToolResult × EnvState :=
  if metric ≠ "latency_p95" ∧ metric ≠ "error_rate" ∧ metric ≠ "qps" then
    ({ ok := false, error := some ("invalid metric: " ++ metric) }, env)
  else if minutes ≤ 0 ∨ minutes > 120 then
    ({ ok := false, error := some ("minutes out of range: " ++ toString minutes) }, env)
  else
    match dictGet env.deployments (service, ns) with
    | none =>
      ({ ok := false, error := some ("unknown deployment: " ++ service ++ " in " ++ ns) }, env)
    | some dep =>
      let key := service ++ ":" ++ ns ++ ":" ++ metric ++ ":" ++ toString minutes
      if metric = "error_rate" then
        let base := max (5/1000 : ℚ) (6/100 - 6/1000 * dep.replicas)
        let noise := uniform env.seed key (-(3/1000)) (3/1000)
        let value := max 0 (base + noise)
        let status := if value < 15/1000 then "good"
          else if value < 25/1000 then "acceptable" else "concerning"
        let recom := if value < 15/1000 then "Error rate is acceptable"
          else if value < 25/1000 then "Error rate improved but could be better"
          else "Error rate still high, consider further scaling"
        ({ ok := true, data := some [("metric", .str metric), ("minutes", .int minutes),
            ("value", .num value), ("status", .str status), ("recommendation", .str recom)] }, env)
      else if metric = "latency_p95" then
        let base := max (80 : ℚ) (300 - 20 * dep.replicas)
        let noise := uniform env.seed key (-10) 10
        let value := max 0 (base + noise)
        let status := if value < 120 then "good"
          else if value < 200 then "acceptable" else "concerning"
        let recom := if value < 120 then "Latency is acceptable"
          else if value < 200 then "Latency improved but could be better"
          else "Latency still high, consider further scaling"
        ({ ok := true, data := some [("metric", .str metric), ("minutes", .int minutes),
            ("value", .num value), ("status", .str status), ("recommendation", .str recom)] }, env)
      else
        let base := 50 * dep.replicas
        let noise := uniform env.seed key (-10) 10
        let value := max 0 (base + noise)
        ({ ok := true, data := some [("metric", .str metric), ("minutes", .int minutes),
            ("value", .num value), ("status", .str "info"),
            ("recommendation", .str ("Current throughput with " ++ toString dep.replicas
              ++ " replicas"))] }, env)

/-- `k8s_scale(env, service, replicas, namespace)`. -/
def k8s_scale (env : EnvState) (service : String) (replicas : Int) (ns : String) :
    ToolResult × EnvState :=
  if replicas < 1 ∨ replicas > 100 then
    ({ ok := false, error := some ("replicas out of range: " ++ toString replicas) }, env)
  else
    match dictGet env.deployments (service, ns) with
    | none =>
      ({ ok := false, error := some ("unknown deployment: " ++ service ++ " in " ++ ns) }, env)
    | some dep =>
      let dep2 : Deployment := { dep with replicas := (replicas : ℚ) }
      ({ ok := true, data := some [("service", .str service), ("namespace", .str ns),
          ("replicas", .int replicas)] },
       { env with deployments := dictSet env.deployments (service, ns) dep2 })

/-- `k8s_restart(env, service, namespace)`. -/
def k8s_restart (now : ℚ) (env : EnvState) (service ns : String) :
    ToolResult × EnvState :=
  match dictGet env.deployments (service, ns) with
  | none =>
    ({ ok := false, error := some ("unknown deployment: " ++ service ++ " in " ++ ns) }, env)
  | some dep =>
    let dep2 : Deployment := { dep with restarted_at := some now }
    ({ ok := true, data := some [("service", .str service), ("namespace", .str ns),
        ("restarted_at", .num now)] },
     { env with deployments := dictSet env.deployments (service, ns) dep2 })

/-- `feature_flag_set(env, flag, enabled)`. -/
def feature_flag_set (env : EnvState) (flag : String) (enabled : Bool) :
    ToolResult × EnvState :=
  ({ ok := true, data := some [("flag", .str flag), ("enabled", .bool enabled)] },
   { env with feature_flags := dictSet env.feature_flags (.str flag) (.bool enabled) })

/-- `incident_log(env, message, severity)`. -/
def incident_log (now : ℚ) (env : EnvState) (message severity : String) :
    ToolResult × EnvState :=
  if severity ≠ "info" ∧ severity ≠ "warning" ∧ severity ≠ "critical" then
    ({ ok := false, error := some ("invalid severity: " ++ severity) }, env)
  else
    ({ ok := true, data := some [("ts", .num now), ("severity", .str severity),
        ("message", .str message)] },
     { env with incident_log := env.incident_log ++ [⟨now, severity, message⟩] })

/-- `ticket_update(env, status, note)`. -/
def ticket_update (env : EnvState) (status note : String) : ToolResult × EnvState :=
  if status ≠ "open" ∧ status ≠ "investigating" ∧ status ≠ "mitigated" ∧ status ≠ "resolved" then
    ({ ok := false, error := some ("invalid status: " ++ status) }, env)
  else
    ({ ok := true, data := some [("status", .str status), ("note", .str note)] },
     { env with ticket := ⟨status, .str note⟩ })

/-! ## The registry tools on dynamically typed arguments

`exec_tool` calls `fn(env=env, **call.arguments)`: Python binds the keyword
arguments by name only, so wrongly typed values reach the tool bodies.  The
`dyn…` functions below are the same six bodies evaluated on arbitrary
`PyValue` arguments under Python semantics: set membership never matches a
non-string, a numeric comparison against a string raises `TypeError`
(modelled as `none`, and every such raise occurs before any mutation), a
Python bool is an int with value 1 or 0, and assignments store the argument
value as-is.  On well-typed arguments each `dyn…` function agrees with the
typed embedding above (`dynK8sScale_typed` and friends). -/

/-- Python `str()` / f-string rendering of a value: exact for strings, ints
and bools; a float renders as the decimal form of the rational, which can
differ from Python's float repr — no theorem depends on a float's
rendering. -/
def pyStr : PyValue → String
  | .str s => s
  | .int n => toString n
  | .bool b => if b then "True" else "False"
  | .num q => toString q

/-- The numeric value of a Python number (`int`, `bool` or `float`);
`none` for a string, whose use in a numeric comparison raises `TypeError`. -/
def pyNum : PyValue → Option ℚ
  | .str _ => none
  | .int n => some (n : ℚ)
  | .bool b => some (if b then 1 else 0)
  | .num q => some q

/-- `metrics_query` on dynamic arguments.  The metric-validity test runs
first (membership in a string set, never raising); then `minutes <= 0`
raises `TypeError` for a string (`none`); then the deployment lookup, which
a non-string service or namespace simply misses. -/
def dynMetricsQuery (uniform : Int → String → ℚ → ℚ → ℚ) (env : EnvState)
    (service metric minutes ns : PyValue) : Option (ToolResult × EnvState) :=
  match metric with
  | .str m =>
    if m ≠ "latency_p95" ∧ m ≠ "error_rate" ∧ m ≠ "qps" then
      some ({ ok := false, error := some ("invalid metric: " ++ m) }, env)
    else
      match pyNum minutes with
      | none => none
      | some mq =>
        if mq ≤ 0 ∨ mq > 120 then
          some ({ ok := false, error := some ("minutes out of range: " ++ pyStr minutes) }, env)
        else
          match service, ns with
          | .str s, .str n =>
            match dictGet env.deployments (s, n) with
            | none =>
              some ({ ok := false, error := some ("unknown deployment: " ++ s ++ " in " ++ n) }, env)
            | some dep =>
              let key := s ++ ":" ++ n ++ ":" ++ m ++ ":" ++ pyStr minutes
              if m = "error_rate" then
                let base := max (5/1000 : ℚ) (6/100 - 6/1000 * dep.replicas)
                let noise := uniform env.seed key (-(3/1000)) (3/1000)
                let value := max 0 (base + noise)
                let status := if value < 15/1000 then "good"
                  else if value < 25/1000 then "acceptable" else "concerning"
                let recom := if value < 15/1000 then "Error rate is acceptable"
                  else if value < 25/1000 then "Error rate improved but could be better"
                  else "Error rate still high, consider further scaling"
                some ({ ok := true, data := some [("metric", metric), ("minutes", minutes),
                  ("value", .num value), ("status", .str status),
                  ("recommendation", .str recom)] }, env)
              else if m = "latency_p95" then
                let base := max (80 : ℚ) (300 - 20 * dep.replicas)
                let noise := uniform env.seed key (-10) 10
                let value := max 0 (base + noise)
                let status := if value < 120 then "good"
                  else if value < 200 then "acceptable" else "concerning"
                let recom := if value < 120 then "Latency is acceptable"
                  else if value < 200 then "Latency improved but could be better"
                  else "Latency still high, consider further scaling"
                some ({ ok := true, data := some [("metric", metric), ("minutes", minutes),
                  ("value", .num value), ("status", .str status),
                  ("recommendation", .str recom)] }, env)
              else
                let base := 50 * dep.replicas
                let noise := uniform env.seed key (-10) 10
                let value := max 0 (base + noise)
                some ({ ok := true, data := some [("metric", metric), ("minutes", minutes),
                  ("value", .num value), ("status", .str "info"),
                  ("recommendation", .str ("Current throughput with "
                    ++ toString dep.replicas ++ " replicas"))] }, env)
          | _, _ =>
            some ({ ok := false, error := some ("unknown deployment: " ++ pyStr service ++ " in " ++ pyStr ns) }, env)
  | _ =>
    some ({ ok := false, error := some ("invalid metric: " ++ pyStr metric) }, env)

/-- `k8s_scale` on dynamic arguments.  `replicas < 1` raises `TypeError`
for a string (`none`, before any mutation); a numeric value (int, bool or
float) is range-checked and stored as-is. -/
def dynK8sScale (env : EnvState) (service replicas ns : PyValue) :
    Option (ToolResult × EnvState) :=
  match pyNum replicas with
  | none => none
  | some q =>
    if q < 1 ∨ q > 100 then
      some ({ ok := false, error := some ("replicas out of range: " ++ pyStr replicas) }, env)
    else
      match service, ns with
      | .str s, .str n =>
        match dictGet env.deployments (s, n) with
        | none =>
          some ({ ok := false, error := some ("unknown deployment: " ++ s ++ " in " ++ n) }, env)
        | some dep =>
          let dep2 : Deployment := { dep with replicas := q }
          some ({ ok := true, data := some [("service", service), ("namespace", ns),
              ("replicas", replicas)] },
            { env with deployments := dictSet env.deployments (s, n) dep2 })
      | _, _ =>
        some ({ ok := false, error := some ("unknown deployment: " ++ pyStr service ++ " in " ++ pyStr ns) }, env)

/-- `k8s_restart` on dynamic arguments: no numeric operation, so no
`TypeError`; a non-string key misses the lookup. -/
def dynK8sRestart (now : ℚ) (env : EnvState) (service ns : PyValue) :
    ToolResult × EnvState :=
  match service, ns with
  | .str s, .str n =>
    match dictGet env.deployments (s, n) with
    | none =>
      ({ ok := false, error := some ("unknown deployment: " ++ s ++ " in " ++ n) }, env)
    | some dep =>
      let dep2 : Deployment := { dep with restarted_at := some now }
      ({ ok := true, data := some [("service", service), ("namespace", ns),
          ("restarted_at", .num now)] },
       { env with deployments := dictSet env.deployments (s, n) dep2 })
  | _, _ =>
    ({ ok := false, error := some ("unknown deployment: " ++ pyStr service ++ " in " ++ pyStr ns) }, env)

/-- `feature_flag_set` on dynamic arguments: always succeeds and stores the
`flag` and `enabled` values as-is (the source performs no validation or
coercion). -/
def dynFeatureFlagSet (env : EnvState) (flag enabled : PyValue) :
    ToolResult × EnvState :=
  ({ ok := true, data := some [("flag", flag), ("enabled", enabled)] },
   { env with feature_flags := dictSet env.feature_flags flag enabled })

/-- `incident_log` on dynamic arguments: a non-string severity never matches
the enum; a non-string message is accepted and logged.  The log keeps the
`str()` rendering of the message — exact for the string messages every claim
touches; a state holding a non-string message is one the source's own
scoring cannot even inspect (`in` against a non-string raises). -/
def dynIncidentLog (now : ℚ) (env : EnvState) (message severity : PyValue) :
    ToolResult × EnvState :=
  match severity with
  | .str sev =>
    if sev ≠ "info" ∧ sev ≠ "warning" ∧ sev ≠ "critical" then
      ({ ok := false, error := some ("invalid severity: " ++ sev) }, env)
    else
      ({ ok := true, data := some [("ts", .num now), ("severity", severity),
          ("message", message)] },
       { env with incident_log := env.incident_log ++ [⟨now, sev, pyStr message⟩] })
  | _ =>
    ({ ok := false, error := some ("invalid severity: " ++ pyStr severity) }, env)

/-- `ticket_update` on dynamic arguments: a non-string status never matches
the enum (ordinary failure, no exception); with a valid status the note is
assigned as-is, whatever its type. -/
def dynTicketUpdate (env : EnvState) (status note : PyValue) :
    ToolResult × EnvState :=
  match status with
  | .str st =>
    if st ≠ "open" ∧ st ≠ "investigating" ∧ st ≠ "mitigated" ∧ st ≠ "resolved" then
      ({ ok := false, error := some ("invalid status: " ++ st) }, env)
    else
      ({ ok := true, data := some [("status", status), ("note", note)] },
       { env with ticket := ⟨st, note⟩ })
  | _ =>
    ({ ok := false, error := some ("invalid status: " ++ pyStr status) }, env)

/-! ### Agreement of the dynamic bodies with the typed embeddings -/

theorem dynTicketUpdate_typed (env : EnvState) (st nt : String) :
    dynTicketUpdate env (.str st) (.str nt) = ticket_update env st nt := rfl

theorem dynFeatureFlagSet_typed (env : EnvState) (f : String) (e : Bool) :
    dynFeatureFlagSet env (.str f) (.bool e) = feature_flag_set env f e := rfl

theorem dynIncidentLog_typed (now : ℚ) (env : EnvState) (m sev : String) :
    dynIncidentLog now env (.str m) (.str sev) = incident_log now env m sev := rfl

theorem dynK8sRestart_typed (now : ℚ) (env : EnvState) (s n : String) :
    dynK8sRestart now env (.str s) (.str n) = k8s_restart now env s n := rfl

theorem dynK8sScale_typed (env : EnvState) (s : String) (n : Int) (ns2 : String) :
    dynK8sScale env (.str s) (.int n) (.str ns2) = some (k8s_scale env s n ns2) := by
  simp only [dynK8sScale, k8s_scale, pyNum]
  by_cases hc : n < 1 ∨ n > 100
  · have hcq : ((n : ℚ) < 1 ∨ (n : ℚ) > 100) := by exact_mod_cast hc
    rw [if_pos hcq, if_pos hc]
    rfl
  · have hcq : ¬ ((n : ℚ) < 1 ∨ (n : ℚ) > 100) := by
      push_neg at hc ⊢
      exact_mod_cast hc
    rw [if_neg hcq, if_neg hc]
    cases hg : dictGet env.deployments (s, ns2) <;> simp [hg]

theorem dynMetricsQuery_typed (uniform : Int → String → ℚ → ℚ → ℚ) (env : EnvState)
    (s m : String) (mm : Int) (n : String) :
    dynMetricsQuery uniform env (.str s) (.str m) (.int mm) (.str n)
      = some (metrics_query uniform env s m mm n) := by
  simp only [dynMetricsQuery, metrics_query, pyNum]
  by_cases h1 : m ≠ "latency_p95" ∧ m ≠ "error_rate" ∧ m ≠ "qps"
  · rw [if_pos h1, if_pos h1]
  · rw [if_neg h1, if_neg h1]
    by_cases h2 : mm ≤ 0 ∨ mm > 120
    · have h2q : ((mm : ℚ) ≤ 0 ∨ (mm : ℚ) > 120) := by exact_mod_cast h2
      rw [if_pos h2q, if_pos h2]
      rfl
    · have h2q : ¬ ((mm : ℚ) ≤ 0 ∨ (mm : ℚ) > 120) := by
        push_neg at h2 ⊢
        exact_mod_cast h2
      rw [if_neg h2q, if_neg h2]
      cases hg : dictGet env.deployments (s, n) with
      | none => simp only [hg]
      | some dep =>
        simp only [hg]
        by_cases hm1 : m = "error_rate"
        · subst hm1
          rfl
        · by_cases hm2 : m = "latency_p95"
          · subst hm2
            rfl
          · rw [if_neg hm1, if_neg hm2, if_neg hm1, if_neg hm2]
            rfl

/-! ## The harness (`src/harness.py`: `build_env`, `exec_tool`) -/

/-- `ToolCall(name, arguments)`: the call as issued, its arguments an
untyped Python keyword-argument mapping. -/
structure ToolCall where
  name : String
  arguments : List (String × PyValue)
deriving DecidableEq

/-- The keys of `TOOL_REGISTRY`, in declaration order. -/
def toolNames : List String :=
  ["metrics_query", "k8s_scale", "k8s_restart", "feature_flag_set",
   "incident_log", "ticket_update"]

/-- Do the keyword arguments bind to exactly the expected parameter names?
Mirrors Python's `fn(env=env, **call.arguments)`: a missing or an unexpected
keyword raises `TypeError` at the call, before the body runs.  Binding is by
name only — the values' types play no part. -/
def argNamesOk (args : List (String × PyValue)) (expected : List String) : Bool :=
  expected.all (fun p => (dictGet args p).isSome)
    && args.all (fun kv => expected.contains kv.1)

/-- Bind the keyword arguments by name and run the tool body on the values
as given.  `none` models a `TypeError`: either a missing or unexpected
keyword at the call (`argNamesOk`), or a raise inside the body (a string
used in a numeric comparison — `dynMetricsQuery` / `dynK8sScale`).  Every
such raise occurs before any mutation, and `exec_tool` catches both alike
as an `argument error:`. -/
def runTool (uniform : Int → String → ℚ → ℚ → ℚ) (now : ℚ) (env : EnvState)
    (call : ToolCall) : Option (ToolResult × EnvState) :=
  let a := call.arguments
  if call.name = "metrics_query" then
    if argNamesOk a ["service", "metric", "minutes", "namespace"] then
      match dictGet a "service", dictGet a "metric",
          dictGet a "minutes", dictGet a "namespace" with
      | some s, some m, some mins, some n => dynMetricsQuery uniform env s m mins n
      | _, _, _, _ => none
    else none
  else if call.name = "k8s_scale" then
    if argNamesOk a ["service", "replicas", "namespace"] then
      match dictGet a "service", dictGet a "replicas", dictGet a "namespace" with
      | some s, some r, some n => dynK8sScale env s r n
      | _, _, _ => none
    else none
  else if call.name = "k8s_restart" then
    if argNamesOk a ["service", "namespace"] then
      match dictGet a "service", dictGet a "namespace" with
      | some s, some n => some (dynK8sRestart now env s n)
      | _, _ => none
    else none
  else if call.name = "feature_flag_set" then
    if argNamesOk a ["flag", "enabled"] then
      match dictGet a "flag", dictGet a "enabled" with
      | some f, some e => some (dynFeatureFlagSet env f e)
      | _, _ => none
    else none
  else if call.name = "incident_log" then
    if argNamesOk a ["message", "severity"] then
      match dictGet a "message", dictGet a "severity" with
      | some m, some sev => some (dynIncidentLog now env m sev)
      | _, _ => none
    else none
  else if call.name = "ticket_update" then
    if argNamesOk a ["status", "note"] then
      match dictGet a "status", dictGet a "note" with
      | some st, some nt => some (dynTicketUpdate env st nt)
      | _, _ => none
    else none
  else none

/-- `exec_tool(env, call)`: look the tool up in the registry, run it, and
fold every failure into a result record — an unknown tool name, any
`TypeError` whether from keyword binding or raised inside the body
(`argument error:`), or any other exception (`runtime error:`; no registry
tool raises a non-`TypeError` exception on these argument values, so that
branch of the source never fires here). -/
def exec_tool (uniform : Int → String → ℚ → ℚ → ℚ) (now : ℚ) (env : EnvState)
    (call : ToolCall) : ToolResult × EnvState :=
  if toolNames.contains call.name then
    match runTool uniform now env call with
    | some r => r
    | none =>
      ({ ok := false, error := some ("argument error: bad arguments for " ++ call.name) }, env)
  else
    ({ ok := false, error := some ("unknown tool: " ++ call.name) }, env)

/-- One deployment record of a scenario's `initial_state`
(`{"service": ..., "namespace": ..., "replicas": ...?}`). -/
structure DepItem where
  service : String
  nspace : String
  replicas : Option Int
deriving DecidableEq

/-- The optional `initial_state["ticket"]` record. -/
structure TicketInit where
  status : Option String := none
  note : Option String := none
deriving DecidableEq

/-- A scenario's `initial_state` description. -/
structure InitialState where
  deployments : List DepItem := []
  feature_flags : List (String × Bool) := []
  ticket : Option TicketInit := none
deriving DecidableEq

/-- `build_env(initial_state)`: start from the default `EnvState`, insert each
deployment (replicas defaulting to 1), copy the feature flags, and overwrite
the ticket's fields with those given.  The three fields are independent, so
the source's sequential mutation is written field by field. -/
def build_env (init : InitialState) : EnvState :=
  let deps := init.deployments.foldl
    (fun l item =>
      dictSet l (item.service, item.nspace)
        ⟨item.service, item.nspace, ((item.replicas.getD 1 : Int) : ℚ), none⟩) []
  let flags := init.feature_flags.foldl
    (fun l kv => dictSet l (.str kv.1) (.bool kv.2)) []
  let t : Ticket :=
    match init.ticket with
    | none => ⟨"open", .str ""⟩
    | some ti => ⟨ti.status.getD "open", .str (ti.note.getD "")⟩
  { deployments := deps, feature_flags := flags, ticket := t,
    incident_log := [], seed := 42 }

/-- The environment after a sequence of dispatched tool calls, each paired
with its wall-clock instant (as `Harness.run_sequence` / `run_llm` dispatch
them one by one). -/
def applyCalls (uniform : Int → String → ℚ → ℚ → ℚ)
    (steps : List (ℚ × ToolCall)) (env : EnvState) : EnvState :=
  steps.foldl (fun e step => (exec_tool uniform step.1 e step.2).2) env

/-! ## The scoring engine (`src/scoring.py`) -/

/-- An acceptance-criteria deployment requirement
(`criteria["deployment"]`). -/
structure DepReq where
  service : String
  nspace : String
  replicas_gte : Option Int
deriving DecidableEq

/-- A scenario's `acceptance_criteria` record; `none` models an omitted key.
The source tests each value for Python truthiness, so an empty string is
treated like an omitted criterion. -/
structure Criteria where
  deployment : Option DepReq := none
  incident_log_contains : Option String := none
  ticket_status : Option String := none
deriving DecidableEq

/-- The `{"valid": ..., "reasons": [...]}` record the checks return. -/
structure CheckResult where
  valid : Bool
  reasons : List String
deriving DecidableEq

/-- The deployment clause shared by `check_acceptance` and
`check_technical_success`: flag and reason strings exactly as in the source. -/
def depCheck (env : EnvState) (c : Criteria) : Bool × List String :=
  match c.deployment with
  | none => (true, [])
  | some dr =>
    match dictGet env.deployments (dr.service, dr.nspace) with
    | none => (false, ["missing deployment " ++ dr.service ++ ":" ++ dr.nspace])
    | some dep =>
      match dr.replicas_gte with
      | none => (true, [])
      | some g =>
        if dep.replicas < g then
          (false, ["replicas " ++ toString dep.replicas ++ " < " ++ toString g])
        else (true, [])

/-- The incident-log clause shared by both checks (`log_contains` is tested
for truthiness, so an empty string skips the clause). -/
def logCheck (env : EnvState) (c : Criteria) : Bool × List String :=
  match c.incident_log_contains with
  | none => (true, [])
  | some s =>
    if s = "" then (true, [])
    else if env.incident_log.any (fun e => strContains s e.message) then (true, [])
    else (false, ["incident log missing required message"])

/-- The ticket-status clause of `check_acceptance`. -/
def ticketCheck (env : EnvState) (c : Criteria) : Bool × List String :=
  match c.ticket_status with
  | none => (true, [])
  | some s =>
    if s = "" then (true, [])
    else if env.ticket.status ≠ s then
      (false, ["ticket status " ++ env.ticket.status ++ " != " ++ s])
    else (true, [])

/-- `check_acceptance(env, criteria)`: all three clauses, reasons in source
order. -/
def check_acceptance (env : EnvState) (c : Criteria) : CheckResult :=
  let d := depCheck env c
  let l := logCheck env c
  let t := ticketCheck env c
  ⟨d.1 && l.1 && t.1, d.2 ++ l.2 ++ t.2⟩

/-- `check_technical_success(env, criteria)`: the same clauses minus the
ticket status. -/
def check_technical_success (env : EnvState) (c : Criteria) : CheckResult :=
  let d := depCheck env c
  let l := logCheck env c
  ⟨d.1 && l.1, d.2 ++ l.2⟩

/-- What `partial_credit` reads from one trace entry: the call's name and
the result's `ok` flag and `error` message. -/
structure TraceEntry where
  name : String
  resultOk : Bool
  resultError : Option String
deriving DecidableEq

/-- Python `str(...)` of a result's possibly-absent error message. -/
def errText : Option String → String
  | none => "None"
  | some s => s

/-- The record of the four trace-derived credit signals; `tool_stx_ok`
embeds the source's `tool_syntax_ok`. -/
structure CreditSignals where
  tool_stx_ok : Bool
  verification_performed : Bool
  incident_logged : Bool
  ticket_updated : Bool
deriving DecidableEq

/-- Is the call one of the three mutating actions the verification signal
looks for? -/
def isActionName (s : String) : Bool :=
  s == "k8s_scale" || s == "k8s_restart" || s == "feature_flag_set"

/-- The source's `for c in calls` loop carrying `did_action` and
`verification`. -/
def verifLoop : List TraceEntry → Bool → Bool → Bool
  | [], _, verification => verification
  | c :: rest, didAction, verification =>
    let didAction2 := didAction || isActionName c.name
    let verification2 := verification || (didAction2 && (c.name == "metrics_query"))
    verifLoop rest didAction2 verification2

/-- `partial_credit(trace)`: the four signals computed from the trace's
tool-call entries. -/
def credit_signals (calls : List TraceEntry) : CreditSignals :=
  { tool_stx_ok :=
      !(calls.any (fun c => !c.resultOk && strContains "argument error" (errText c.resultError))),
    verification_performed := verifLoop calls false false,
    incident_logged := calls.any (fun c => c.name == "incident_log"),
    ticket_updated := calls.any (fun c => c.name == "ticket_update") }

/-- The `breakdown` mapping of `compute_weighted_score`; `tool_stx` embeds
the source's `tool_syntax` component. -/
structure ScoreBreakdown where
  technical_task : ℚ
  ticket_updated : ℚ
  incident_logged : ℚ
  verification : ℚ
  tool_stx : ℚ
deriving DecidableEq

/-- The record `compute_weighted_score` returns. -/
structure ScoreResult where
  total_score : ℚ
  max_score : ℚ
  breakdown : ScoreBreakdown
deriving DecidableEq

/-- Python `round(x, 1)`.  Stated for rationals; every value the scorer
rounds is an exact multiple of `1/10`, where rounding is the identity, so the
tie-breaking convention is immaterial. -/
def round1 (q : ℚ) : ℚ := (⌊q * 10 + 1/2⌋ : ℚ) / 10

/-- `compute_weighted_score(acceptance, partial, technical)`.  The
`acceptance` record is accepted and ignored, as in the source. -/
def compute_weighted_score (acceptance : CheckResult) (credit : CreditSignals)
    (technical : CheckResult) : ScoreResult :=
  let _ := acceptance
  let wTech : ℚ := 60/100
  let wTicket : ℚ := 15/100
  let wIncident : ℚ := 15/100
  let wVerif : ℚ := 5/100
  let wStx : ℚ := 5/100
  let technical_score : ℚ := if technical.valid then 1 else 0
  let ticket_score : ℚ := if credit.ticket_updated then 1 else 0
  let incident_score : ℚ := if credit.incident_logged then 1 else 0
  let verification_score : ℚ := if credit.verification_performed then 1 else 0
  let stx_score : ℚ := if credit.tool_stx_ok then 1 else 0
  let total := technical_score * wTech + ticket_score * wTicket
    + incident_score * wIncident + verification_score * wVerif + stx_score * wStx
  { total_score := round1 (total * 100),
    max_score := 100,
    breakdown :=
      ⟨round1 (technical_score * wTech * 100), round1 (ticket_score * wTicket * 100),
       round1 (incident_score * wIncident * 100), round1 (verification_score * wVerif * 100),
       round1 (stx_score * wStx * 100)⟩ }


/-! ## Lemmas about the dictionary model -/

theorem dictGet_map_update {κ α : Type} [DecidableEq κ] (l : List (κ × α)) (k : κ) (v : α) :
    dictGet (l.map (fun p => if p.1 = k then (k, v) else p)) k
      = (dictGet l k).map (fun _ => v) := by
  induction l with
  | nil => rfl
  | cons p rest ih =>
    obtain ⟨pk, pv⟩ := p
    dsimp only [List.map_cons]
    by_cases hp : pk = k
    · subst hp
      rw [if_pos rfl]
      simp [dictGet, ih]
    · rw [if_neg hp]
      have hk : ¬ k = pk := fun h => hp h.symm
      simp [dictGet, hk, ih]

theorem dictGet_map_update_ne {κ α : Type} [DecidableEq κ] (l : List (κ × α)) (k k2 : κ)
    (v : α) (h : k2 ≠ k) :
    dictGet (l.map (fun p => if p.1 = k then (k, v) else p)) k2 = dictGet l k2 := by
  induction l with
  | nil => rfl
  | cons p rest ih =>
    obtain ⟨pk, pv⟩ := p
    dsimp only [List.map_cons]
    by_cases hp : pk = k
    · subst hp
      rw [if_pos rfl]
      simp [dictGet, h, ih]
    · rw [if_neg hp]
      by_cases hq : k2 = pk <;> simp [dictGet, hq, ih]

theorem dictGet_append_single {κ α : Type} [DecidableEq κ] (l : List (κ × α)) (k k2 : κ)
    (v : α) :
    dictGet (l ++ [(k, v)]) k2
      = match dictGet l k2 with
        | some w => some w
        | none => if k2 = k then some v else none := by
  induction l with
  | nil => rfl
  | cons p rest ih =>
    obtain ⟨pk, pv⟩ := p
    by_cases hp : k2 = pk
    · simp [dictGet, hp]
    · simp [dictGet, hp, ih]

theorem dictGet_dictSet_self {κ α : Type} [DecidableEq κ] (l : List (κ × α)) (k : κ) (v : α) :
    dictGet (dictSet l k v) k = some v := by
  by_cases hg : (dictGet l k).isSome
  · unfold dictSet
    rw [if_pos hg, dictGet_map_update]
    obtain ⟨w, hw⟩ := Option.isSome_iff_exists.mp hg
    rw [hw]
    rfl
  · unfold dictSet
    rw [if_neg hg, dictGet_append_single]
    have h0 : dictGet l k = none := Option.not_isSome_iff_eq_none.mp hg
    rw [h0]
    simp

theorem dictGet_dictSet_ne {κ α : Type} [DecidableEq κ] (l : List (κ × α)) (k k2 : κ)
    (v : α) (h : k2 ≠ k) :
    dictGet (dictSet l k v) k2 = dictGet l k2 := by
  by_cases hg : (dictGet l k).isSome
  · unfold dictSet
    rw [if_pos hg, dictGet_map_update_ne _ _ _ _ h]
  · unfold dictSet
    rw [if_neg hg, dictGet_append_single]
    cases hg2 : dictGet l k2 with
    | none => simp [h]
    | some w => rfl

/-! ## C1/C2: the acceptance and technical-success checks -/

/-- The claim's reading of the deployment criterion: when the record gives a
deployment requirement, the keyed deployment exists, and when a replica floor
is given the replica count is at or above it. -/
def depHolds (env : EnvState) (c : Criteria) : Prop :=
  ∀ dr, c.deployment = some dr →
    ∃ dep, dictGet env.deployments (dr.service, dr.nspace) = some dep ∧
      ∀ g, dr.replicas_gte = some g → g ≤ dep.replicas

/-- The claim's reading of the log criterion: when the record gives a
(nonempty) required substring, some incident-log entry's message contains it.
An empty string is not a substring requirement: the scenario format uses an
absent or empty value for an omitted criterion, matching the source's
truthiness test on the value. -/
def logHolds (env : EnvState) (c : Criteria) : Prop :=
  ∀ s, c.incident_log_contains = some s → s ≠ "" →
    ∃ e ∈ env.incident_log, strContains s e.message = true

/-- The claim's reading of the ticket criterion: when the record gives a
(nonempty) required status, the ticket's status equals it. -/
def ticketHolds (env : EnvState) (c : Criteria) : Prop :=
  ∀ s, c.ticket_status = some s → s ≠ "" → env.ticket.status = s

/-- Boolean form of `depHolds`. -/
def depHoldsB (env : EnvState) (c : Criteria) : Bool :=
  match c.deployment with
  | none => true
  | some dr =>
    match dictGet env.deployments (dr.service, dr.nspace) with
    | none => false
    | some dep =>
      match dr.replicas_gte with
      | none => true
      | some g => decide (g ≤ dep.replicas)

/-- Boolean form of `logHolds`. -/
def logHoldsB (env : EnvState) (c : Criteria) : Bool :=
  match c.incident_log_contains with
  | none => true
  | some s =>
    if s = "" then true else env.incident_log.any (fun e => strContains s e.message)

/-- Boolean form of `ticketHolds`. -/
def ticketHoldsB (env : EnvState) (c : Criteria) : Bool :=
  match c.ticket_status with
  | none => true
  | some s => if s = "" then true else decide (env.ticket.status = s)

theorem depHolds_iff (env : EnvState) (c : Criteria) :
    depHolds env c ↔ depHoldsB env c = true := by
  obtain ⟨cdep, clog, ctick⟩ := c
  unfold depHolds depHoldsB
  cases cdep with
  | none => simp
  | some dr =>
    dsimp only
    cases hg : dictGet env.deployments (dr.service, dr.nspace) with
    | none => simp [hg]
    | some dep =>
      cases hr : dr.replicas_gte with
      | none => simp [hg, hr]
      | some g => simp [hg, hr]

theorem logHolds_iff (env : EnvState) (c : Criteria) :
    logHolds env c ↔ logHoldsB env c = true := by
  obtain ⟨cdep, clog, ctick⟩ := c
  unfold logHolds logHoldsB
  cases clog with
  | none => simp
  | some s =>
    dsimp only
    by_cases hs : s = ""
    · simp [hs]
    · simp [hs, List.any_eq_true]

theorem ticketHolds_iff (env : EnvState) (c : Criteria) :
    ticketHolds env c ↔ ticketHoldsB env c = true := by
  obtain ⟨cdep, clog, ctick⟩ := c
  unfold ticketHolds ticketHoldsB
  cases ctick with
  | none => simp
  | some s =>
    dsimp only
    by_cases hs : s = ""
    · simp [hs]
    · simp [hs]

instance (env : EnvState) (c : Criteria) : Decidable (depHolds env c) :=
  decidable_of_iff _ (depHolds_iff env c).symm

instance (env : EnvState) (c : Criteria) : Decidable (logHolds env c) :=
  decidable_of_iff _ (logHolds_iff env c).symm

instance (env : EnvState) (c : Criteria) : Decidable (ticketHolds env c) :=
  decidable_of_iff _ (ticketHolds_iff env c).symm

theorem depCheck_fst (env : EnvState) (c : Criteria) :
    (depCheck env c).1 = depHoldsB env c := by
  obtain ⟨cdep, clog, ctick⟩ := c
  unfold depCheck depHoldsB
  cases cdep with
  | none => rfl
  | some dr =>
    dsimp only
    cases hg : dictGet env.deployments (dr.service, dr.nspace) with
    | none => rfl
    | some dep =>
      cases hr : dr.replicas_gte with
      | none => rfl
      | some g =>
        by_cases h : dep.replicas < g
        · simp [h, not_le.mpr h]
        · simp [h, not_lt.mp h]

theorem depCheck_len (env : EnvState) (c : Criteria) :
    (depCheck env c).2.length = if depHoldsB env c then 0 else 1 := by
  obtain ⟨cdep, clog, ctick⟩ := c
  unfold depCheck depHoldsB
  cases cdep with
  | none => rfl
  | some dr =>
    dsimp only
    cases hg : dictGet env.deployments (dr.service, dr.nspace) with
    | none => rfl
    | some dep =>
      cases hr : dr.replicas_gte with
      | none => rfl
      | some g =>
        by_cases h : dep.replicas < g
        · simp [h, not_le.mpr h]
        · simp [h, not_lt.mp h]

theorem logCheck_fst (env : EnvState) (c : Criteria) :
    (logCheck env c).1 = logHoldsB env c := by
  obtain ⟨cdep, clog, ctick⟩ := c
  unfold logCheck logHoldsB
  cases clog with
  | none => rfl
  | some s =>
    dsimp only
    by_cases hs : s = ""
    · simp [hs]
    · by_cases ha : env.incident_log.any (fun e => strContains s e.message)
      · simp [hs, ha]
      · simp [hs, ha]

theorem logCheck_len (env : EnvState) (c : Criteria) :
    (logCheck env c).2.length = if logHoldsB env c then 0 else 1 := by
  obtain ⟨cdep, clog, ctick⟩ := c
  unfold logCheck logHoldsB
  cases clog with
  | none => rfl
  | some s =>
    dsimp only
    by_cases hs : s = ""
    · simp [hs]
    · by_cases ha : env.incident_log.any (fun e => strContains s e.message)
      · simp [hs, ha]
      · simp [hs, ha]

theorem ticketCheck_fst (env : EnvState) (c : Criteria) :
    (ticketCheck env c).1 = ticketHoldsB env c := by
  obtain ⟨cdep, clog, ctick⟩ := c
  unfold ticketCheck ticketHoldsB
  cases ctick with
  | none => rfl
  | some s =>
    dsimp only
    by_cases hs : s = ""
    · simp [hs]
    · by_cases he : env.ticket.status = s
      · simp [hs, he]
      · simp [hs, he]

theorem ticketCheck_len (env : EnvState) (c : Criteria) :
    (ticketCheck env c).2.length = if ticketHoldsB env c then 0 else 1 := by
  obtain ⟨cdep, clog, ctick⟩ := c
  unfold ticketCheck ticketHoldsB
  cases ctick with
  | none => rfl
  | some s =>
    dsimp only
    by_cases hs : s = ""
    · simp [hs]
    · by_cases he : env.ticket.status = s
      · simp [hs, he]
      · simp [hs, he]

theorem check_acceptance_valid (env : EnvState) (c : Criteria) :
    (check_acceptance env c).valid
      = (depHoldsB env c && logHoldsB env c && ticketHoldsB env c) := by
  show ((depCheck env c).1 && (logCheck env c).1 && (ticketCheck env c).1) = _
  rw [depCheck_fst, logCheck_fst, ticketCheck_fst]

theorem check_technical_valid (env : EnvState) (c : Criteria) :
    (check_technical_success env c).valid = (depHoldsB env c && logHoldsB env c) := by
  show ((depCheck env c).1 && (logCheck env c).1) = _
  rw [depCheck_fst, logCheck_fst]

/-- C1.  `check_acceptance` is valid exactly when each criterion the record
specifies holds in the final state — a given deployment requirement means the
keyed deployment exists with replicas at or above the floor, a given log
substring must appear in some incident-log message, a given ticket status must
equal the ticket's — an omitted criterion is vacuously satisfied, and each
unmet criterion contributes exactly one reason string. -/
theorem check_acceptance_spec (env : EnvState) (c : Criteria) :
    ((check_acceptance env c).valid = true ↔
      depHolds env c ∧ logHolds env c ∧ ticketHolds env c)
    ∧ (check_acceptance env c).reasons.length
      = (if depHolds env c then 0 else 1) + (if logHolds env c then 0 else 1)
        + (if ticketHolds env c then 0 else 1) := by
  constructor
  · rw [check_acceptance_valid, depHolds_iff, logHolds_iff, ticketHolds_iff]
    simp [Bool.and_eq_true, and_assoc]
  · show ((depCheck env c).2 ++ (logCheck env c).2 ++ (ticketCheck env c).2).length = _
    rw [List.length_append, List.length_append, depCheck_len, logCheck_len, ticketCheck_len]
    cases hd : depHoldsB env c <;> cases hl : logHoldsB env c <;>
      cases ht : ticketHoldsB env c <;>
      simp [depHolds_iff, logHolds_iff, ticketHolds_iff, hd, hl, ht]

/-- C2.  `check_technical_success` evaluates exactly the deployment and log
criteria and ignores the ticket status: acceptance validity implies technical
validity, and a state meeting the deployment and log criteria whose ticket
status differs from a required one is technical-success valid but acceptance
invalid. -/
theorem technical_vs_acceptance_spec (env : EnvState) (c : Criteria) :
    ((check_technical_success env c).valid = true ↔ depHolds env c ∧ logHolds env c)
    ∧ ((check_acceptance env c).valid = true → (check_technical_success env c).valid = true)
    ∧ (depHolds env c → logHolds env c → ¬ ticketHolds env c →
        (check_technical_success env c).valid = true
          ∧ (check_acceptance env c).valid = false) := by
  have hv := check_acceptance_valid env c
  have ht := check_technical_valid env c
  refine ⟨?_, ?_, ?_⟩
  · rw [ht, depHolds_iff, logHolds_iff]
    simp [Bool.and_eq_true]
  · rw [ht, hv]
    intro h
    rcases Bool.and_eq_true .. |>.mp h with ⟨h1, _⟩
    exact h1
  · intro hd hl hts
    rw [depHolds_iff] at hd
    rw [logHolds_iff] at hl
    rw [ticketHolds_iff] at hts
    have htb : ticketHoldsB env c = false := by
      cases hx : ticketHoldsB env c
      · rfl
      · exact absurd hx hts
    constructor
    · rw [ht, hd, hl]
      rfl
    · rw [hv, hd, hl, htb]
      rfl

/-- A final state that meets the deployment and log criteria of `critC2` but
carries ticket status `open` where `resolved` is required. -/
def envC2 : EnvState :=
  { deployments := [(("checkout-service", "prod"), ⟨"checkout-service", "prod", 6, none⟩)],
    incident_log := [⟨0, "warning", "scaled checkout-service to mitigate errors"⟩] }

/-- Criteria requiring replicas ≥ 5, the substring `mitigat` in the log, and
ticket status `resolved`. -/
def critC2 : Criteria :=
  { deployment := some ⟨"checkout-service", "prod", some 5⟩,
    incident_log_contains := some "mitigat",
    ticket_status := some "resolved" }

theorem technical_vs_acceptance_witness :
    (check_technical_success envC2 critC2).valid = true
      ∧ (check_acceptance envC2 critC2).valid = false :=
  (technical_vs_acceptance_spec envC2 critC2).2.2 (by decide) (by decide) (by decide)

/-- C3.  `compute_weighted_score` returns a total in [0,100] equal to
60 for technical validity plus 15 for `ticket_updated`, 15 for
`incident_logged`, 5 for `verification_performed` and 5 for `tool_syntax_ok`
(full weight when true, zero otherwise), the breakdown entries sum to the
total, and all signals true with technical validity gives exactly 100. -/
theorem compute_weighted_score_spec (acc : CheckResult) (cr : CreditSignals)
    (tech : CheckResult) :
    (0 ≤ (compute_weighted_score acc cr tech).total_score
      ∧ (compute_weighted_score acc cr tech).total_score ≤ 100)
    ∧ (compute_weighted_score acc cr tech).total_score
      = (if tech.valid then 60 else 0) + (if cr.ticket_updated then 15 else 0)
        + (if cr.incident_logged then 15 else 0)
        + (if cr.verification_performed then 5 else 0) + (if cr.tool_stx_ok then 5 else 0)
    ∧ (compute_weighted_score acc cr tech).breakdown.technical_task
        + (compute_weighted_score acc cr tech).breakdown.ticket_updated
        + (compute_weighted_score acc cr tech).breakdown.incident_logged
        + (compute_weighted_score acc cr tech).breakdown.verification
        + (compute_weighted_score acc cr tech).breakdown.tool_stx
      = (compute_weighted_score acc cr tech).total_score
    ∧ (tech.valid = true → cr.ticket_updated = true → cr.incident_logged = true →
        cr.verification_performed = true → cr.tool_stx_ok = true →
        (compute_weighted_score acc cr tech).total_score = 100) := by
  obtain ⟨tv, tr⟩ := tech
  obtain ⟨c1, c2, c3, c4⟩ := cr
  obtain ⟨av, ar⟩ := acc
  have hrw : compute_weighted_score ⟨av, ar⟩ ⟨c1, c2, c3, c4⟩ ⟨tv, tr⟩
      = compute_weighted_score ⟨false, []⟩ ⟨c1, c2, c3, c4⟩ ⟨tv, []⟩ := rfl
  rw [hrw]
  dsimp only
  cases tv <;> cases c1 <;> cases c2 <;> cases c3 <;> cases c4 <;>
    norm_num [compute_weighted_score, round1]

/-- The composite score is exactly 100 when every signal is earned: the
claim's theorem applied at the all-true records. -/
theorem compute_weighted_score_witness :
    (compute_weighted_score ⟨true, []⟩ ⟨true, true, true, true⟩ ⟨true, []⟩).total_score
      = 100 :=
  (compute_weighted_score_spec ⟨true, []⟩ ⟨true, true, true, true⟩ ⟨true, []⟩).2.2.2
    rfl rfl rfl rfl rfl

/-! ## C4: the verification-performed signal -/

/-- The claim's reading of the signal, as stated: some entry whose call is a
scale/restart/flag action **and whose result succeeded** is followed strictly
later in the trace by a `metrics_query` call. -/
def successActionThenQuery (calls : List TraceEntry) : Prop :=
  ∃ i j : Fin calls.length, i < j ∧ isActionName (calls.get i).name = true
    ∧ (calls.get i).resultOk = true ∧ (calls.get j).name = "metrics_query"

/-- What the source actually tests: some entry whose call is a
scale/restart/flag action (successful or not) is followed strictly later in
the trace by a `metrics_query` call. -/
def actionThenQuery (calls : List TraceEntry) : Prop :=
  ∃ i j : Fin calls.length, i < j ∧ isActionName (calls.get i).name = true
    ∧ (calls.get j).name = "metrics_query"

instance (calls : List TraceEntry) : Decidable (successActionThenQuery calls) := by
  unfold successActionThenQuery
  infer_instance

instance (calls : List TraceEntry) : Decidable (actionThenQuery calls) := by
  unfold actionThenQuery
  infer_instance

/-- Recursive form of `actionThenQuery`. -/
def aqB : List TraceEntry → Bool
  | [] => false
  | c :: rest =>
    (isActionName c.name && rest.any (fun e => e.name == "metrics_query")) || aqB rest

theorem action_not_query (s : String) :
    (isActionName s && (s == "metrics_query")) = false := by
  by_cases hq : s = "metrics_query"
  · subst hq
    decide
  · simp [beq_eq_false_iff_ne.mpr hq]

theorem verifLoop_eq (calls : List TraceEntry) (d v : Bool) :
    verifLoop calls d v
      = (v || (d && calls.any (fun e => e.name == "metrics_query")) || aqB calls) := by
  induction calls generalizing d v with
  | nil => simp [verifLoop, aqB]
  | cons c rest ih =>
    have hAQ := action_not_query c.name
    simp only [verifLoop, aqB, List.any_cons]
    rw [ih]
    cases hA : isActionName c.name <;> cases hQ : (c.name == "metrics_query") <;>
      simp [hA, hQ] at hAQ ⊢ <;>
      cases d <;> cases v <;> simp

theorem credit_verification_eq (calls : List TraceEntry) :
    (credit_signals calls).verification_performed = aqB calls := by
  show verifLoop calls false false = _
  rw [verifLoop_eq]
  simp

theorem aqB_iff (calls : List TraceEntry) :
    aqB calls = true ↔ actionThenQuery calls := by
  induction calls with
  | nil =>
    constructor
    · intro h
      simp [aqB] at h
    · rintro ⟨i, -, -⟩
      exact i.elim0
  | cons c rest ih =>
    unfold actionThenQuery
    constructor
    · intro h
      rcases Bool.or_eq_true .. |>.mp h with h1 | h2
      · rcases Bool.and_eq_true .. |>.mp h1 with ⟨hA, hany⟩
        rcases List.any_eq_true.mp hany with ⟨e, he, hq⟩
        rcases List.mem_iff_get.mp he with ⟨j, hj⟩
        obtain ⟨jv, hjv⟩ := j
        refine ⟨⟨0, Nat.succ_pos _⟩, ⟨jv + 1, Nat.succ_lt_succ hjv⟩, Nat.succ_pos _, hA, ?_⟩
        show (rest.get ⟨jv, hjv⟩).name = "metrics_query"
        rw [hj]
        exact eq_of_beq hq
      · rcases ih.mp h2 with ⟨i, j, hij, hA, hQ⟩
        obtain ⟨iv, hiv⟩ := i
        obtain ⟨jv, hjv⟩ := j
        exact ⟨⟨iv + 1, Nat.succ_lt_succ hiv⟩, ⟨jv + 1, Nat.succ_lt_succ hjv⟩,
          Nat.succ_lt_succ hij, hA, hQ⟩
    · rintro ⟨⟨iv, hiv⟩, ⟨jv, hjv⟩, hij, hA, hQ⟩
      unfold aqB
      have hij2 : iv < jv := hij
      cases jv with
      | zero => exact absurd hij2 (Nat.not_lt_zero _)
      | succ jv2 =>
        apply Bool.or_eq_true .. |>.mpr
        cases iv with
        | zero =>
          left
          apply Bool.and_eq_true .. |>.mpr
          constructor
          · exact hA
          · apply List.any_eq_true.mpr
            refine ⟨rest.get ⟨jv2, Nat.lt_of_succ_lt_succ hjv⟩, List.get_mem _ _ _, ?_⟩
            exact beq_iff_eq .. |>.mpr hQ
        | succ iv2 =>
          right
          apply ih.mpr
          exact ⟨⟨iv2, Nat.lt_of_succ_lt_succ hiv⟩, ⟨jv2, Nat.lt_of_succ_lt_succ hjv⟩,
            Nat.lt_of_succ_lt_succ hij2, hA, hQ⟩

/-- C4, amended.  `verification_performed` is true exactly when a scale,
restart, or feature-flag **call** (whether or not its result succeeded) is
followed strictly later in the trace by a `metrics_query` call; in
particular a trace whose only metrics queries precede every such call yields
false.  The source never inspects the action's result, so the claim's
"successful" qualifier is dropped. -/
theorem verification_order_spec (calls : List TraceEntry) :
    (credit_signals calls).verification_performed = true ↔ actionThenQuery calls := by
  rw [credit_verification_eq]
  exact aqB_iff calls

/-- A failed scale call (`replicas out of range`) followed by a metrics
query. -/
def traceC4 : List TraceEntry :=
  [⟨"k8s_scale", false, some "replicas out of range: 150"⟩,
   ⟨"metrics_query", true, none⟩]

/-- C4 counterexample: on `traceC4` the source sets
`verification_performed = true`, yet no **successful** action precedes the
query, refuting the claim as stated. -/
theorem verification_success_counterexample :
    (credit_signals traceC4).verification_performed = true
      ∧ ¬ successActionThenQuery traceC4 := by
  constructor
  · decide
  · decide

/-! ## C5: the tool-syntax signal -/

/-- C5, amended.  `tool_syntax_ok` is false exactly when some trace entry's
result is a failure whose error message contains the substring
`argument error` — the marker `exec_tool` writes when arguments fail to bind
to the tool's parameters.  A validation failure inside a tool, such as
`replicas out of range: 150` or an unknown deployment, does not carry that
marker and leaves the signal true. -/
theorem tool_stx_spec (calls : List TraceEntry) :
    (credit_signals calls).tool_stx_ok = false ↔
      ∃ c ∈ calls, c.resultOk = false
        ∧ strContains "argument error" (errText c.resultError) = true := by
  show (!(calls.any (fun c => !c.resultOk
      && strContains "argument error" (errText c.resultError)))) = false ↔ _
  rw [Bool.not_eq_false']
  rw [List.any_eq_true]
  constructor
  · rintro ⟨c, hc, hb⟩
    rcases Bool.and_eq_true .. |>.mp hb with ⟨h1, h2⟩
    exact ⟨c, hc, Bool.not_eq_true' .. |>.mp h1, h2⟩
  · rintro ⟨c, hc, h1, h2⟩
    exact ⟨c, hc, Bool.and_eq_true .. |>.mpr ⟨Bool.not_eq_true' .. |>.mpr h1, h2⟩⟩

/-- An environment with a single `checkout-service`/`prod` deployment. -/
def envC5 : EnvState :=
  { deployments := [(("checkout-service", "prod"), ⟨"checkout-service", "prod", 2, none⟩)] }

/-- C5 counterexample: `k8s_scale` with `replicas = 150` fails with
`replicas out of range: 150`, which does not contain `argument error`, so a
trace recording that failure keeps `tool_syntax_ok = true` — refuting the
claim's assertion that this failure makes the signal false. -/
theorem tool_stx_counterexample :
    (k8s_scale envC5 "checkout-service" 150 "prod").1
        = { ok := false, error := some "replicas out of range: 150" }
      ∧ (credit_signals
          [⟨"k8s_scale", false, some "replicas out of range: 150"⟩]).tool_stx_ok = true := by
  constructor
  · decide
  · decide

/-! ## C6: purity and determinism of metrics_query -/

theorem metrics_query_pure (uniform : Int → String → ℚ → ℚ → ℚ) (env : EnvState)
    (service metric : String) (minutes : Int) (ns : String) :
    (metrics_query uniform env service metric minutes ns).2 = env := by
  unfold metrics_query
  split
  · rfl
  · split
    · rfl
    · split
      · rfl
      · split
        · rfl
        · split <;> rfl

/-- C6.  `metrics_query` is deterministic and pure: two environments agreeing
on the seed and on the referenced deployment's replica count (including its
existence) give identical results for identical arguments, and the call
leaves the environment unchanged. -/
theorem metrics_query_deterministic (uniform : Int → String → ℚ → ℚ → ℚ)
    (env1 env2 : EnvState) (service metric : String) (minutes : Int) (ns : String)
    (hseed : env1.seed = env2.seed)
    (hdep : (dictGet env1.deployments (service, ns)).map Deployment.replicas
      = (dictGet env2.deployments (service, ns)).map Deployment.replicas) :
    (metrics_query uniform env1 service metric minutes ns).1
        = (metrics_query uniform env2 service metric minutes ns).1
    ∧ (metrics_query uniform env1 service metric minutes ns).2 = env1 := by
  refine ⟨?_, metrics_query_pure uniform env1 service metric minutes ns⟩
  by_cases h1 : metric ≠ "latency_p95" ∧ metric ≠ "error_rate" ∧ metric ≠ "qps"
  · simp [metrics_query, h1]
  · by_cases h2 : minutes ≤ 0 ∨ minutes > 120
    · simp [metrics_query, h1, h2]
    · cases hg1 : dictGet env1.deployments (service, ns) with
      | none =>
        have hg2 : dictGet env2.deployments (service, ns) = none := by
          rw [hg1] at hdep
          exact Option.map_eq_none'.mp hdep.symm
        simp [metrics_query, h1, h2, hg1, hg2]
      | some dep1 =>
        have hx : ∃ dep2, dictGet env2.deployments (service, ns) = some dep2
            ∧ dep2.replicas = dep1.replicas := by
          rw [hg1] at hdep
          cases hg2x : dictGet env2.deployments (service, ns) with
          | none =>
            rw [hg2x] at hdep
            simp at hdep
          | some d2 =>
            rw [hg2x] at hdep
            simp at hdep
            exact ⟨d2, rfl, hdep.symm⟩
        obtain ⟨dep2, hg2, hrep⟩ := hx
        by_cases hm1 : metric = "error_rate"
        · subst hm1
          simp [metrics_query, h2, hg1, hg2, hseed, hrep]
        · by_cases hm2 : metric = "latency_p95"
          · subst hm2
            simp [metrics_query, h2, hg1, hg2, hseed, hrep]
          · have hm3 : metric = "qps" := by
              push_neg at h1
              exact h1 hm2 hm1
            subst hm3
            simp [metrics_query, h2, hg1, hg2, hseed, hrep]

/-- A concrete stand-in for the seeded uniform generator, used to
instantiate theorems at concrete inputs. -/
def uniformW : Int → String → ℚ → ℚ → ℚ := fun _ _ lo _ => lo

/-- First environment for the determinism witness. -/
def envC6a : EnvState :=
  { deployments := [(("a", "p"), ⟨"a", "p", 3, none⟩)] }

/-- Second environment: same seed and same replica count under `("a", "p")`,
everything else different. -/
def envC6b : EnvState :=
  { deployments := [(("a", "p"), ⟨"a", "p", 3, some 1⟩), (("b", "q"), ⟨"b", "q", 9, none⟩)],
    feature_flags := [(.str "f", .bool true)],
    ticket := ⟨"resolved", .str "x"⟩,
    incident_log := [⟨0, "info", "hello"⟩] }

theorem metrics_query_deterministic_witness :
    (metrics_query uniformW envC6a "a" "error_rate" 15 "p").1
        = (metrics_query uniformW envC6b "a" "error_rate" 15 "p").1
    ∧ (metrics_query uniformW envC6a "a" "error_rate" 15 "p").2 = envC6a :=
  metrics_query_deterministic uniformW envC6a envC6b "a" "error_rate" 15 "p"
    (by decide) (by decide)

/-! ## C7: the scale operation's effect and frame -/

/-- C7.  With an existing deployment and replicas in [1,100], `k8s_scale`
succeeds and sets exactly that deployment's replica count; every other
deployment, the feature flags, the ticket, the incident log and the seed are
unchanged.  With replicas out of range or an unknown deployment it fails and
leaves the environment entirely unchanged. -/
theorem k8s_scale_spec (env : EnvState) (service : String) (replicas : Int) (ns : String) :
    (∀ dep, dictGet env.deployments (service, ns) = some dep →
      1 ≤ replicas → replicas ≤ 100 →
      (k8s_scale env service replicas ns).1.ok = true
      ∧ dictGet (k8s_scale env service replicas ns).2.deployments (service, ns)
          = some { dep with replicas := replicas }
      ∧ (∀ k, k ≠ (service, ns) →
          dictGet (k8s_scale env service replicas ns).2.deployments k
            = dictGet env.deployments k)
      ∧ (k8s_scale env service replicas ns).2.feature_flags = env.feature_flags
      ∧ (k8s_scale env service replicas ns).2.ticket = env.ticket
      ∧ (k8s_scale env service replicas ns).2.incident_log = env.incident_log
      ∧ (k8s_scale env service replicas ns).2.seed = env.seed)
    ∧ ((replicas < 1 ∨ 100 < replicas ∨ dictGet env.deployments (service, ns) = none) →
      (k8s_scale env service replicas ns).1.ok = false
      ∧ (k8s_scale env service replicas ns).2 = env) := by
  constructor
  · intro dep hg h1 h100
    have hcond : ¬ (replicas < 1 ∨ replicas > 100) := by
      push_neg
      exact ⟨not_lt.mp (fun h => absurd h1 (not_le.mpr h)), h100⟩
    simp only [k8s_scale, if_neg hcond, hg]
    refine ⟨by trivial, ?_, ?_, by trivial, by trivial, by trivial, by trivial⟩
    · exact dictGet_dictSet_self env.deployments (service, ns) _
    · intro k hk
      exact dictGet_dictSet_ne env.deployments (service, ns) k _ hk
  · intro hbad
    by_cases hcond : replicas < 1 ∨ replicas > 100
    · simp [k8s_scale, hcond]
    · have hnone : dictGet env.deployments (service, ns) = none := by
        rcases hbad with h | h | h
        · exact absurd (Or.inl h) hcond
        · exact absurd (Or.inr h) hcond
        · exact h
      simp [k8s_scale, hcond, hnone]

/-- An environment with two deployments, for the scale witness. -/
def envC7 : EnvState :=
  { deployments := [(("a", "p"), ⟨"a", "p", 2, none⟩), (("b", "p"), ⟨"b", "p", 4, none⟩)] }

theorem k8s_scale_spec_witness :
    ((k8s_scale envC7 "a" 6 "p").1.ok = true
      ∧ dictGet (k8s_scale envC7 "a" 6 "p").2.deployments ("a", "p")
          = some ⟨"a", "p", 6, none⟩
      ∧ (∀ k, k ≠ ("a", "p") →
          dictGet (k8s_scale envC7 "a" 6 "p").2.deployments k
            = dictGet envC7.deployments k)
      ∧ (k8s_scale envC7 "a" 6 "p").2.feature_flags = envC7.feature_flags
      ∧ (k8s_scale envC7 "a" 6 "p").2.ticket = envC7.ticket
      ∧ (k8s_scale envC7 "a" 6 "p").2.incident_log = envC7.incident_log
      ∧ (k8s_scale envC7 "a" 6 "p").2.seed = envC7.seed)
    ∧ ((k8s_scale envC7 "a" 150 "p").1.ok = false
      ∧ (k8s_scale envC7 "a" 150 "p").2 = envC7) :=
  ⟨(k8s_scale_spec envC7 "a" 6 "p").1 ⟨"a", "p", 2, none⟩ (by decide) (by decide) (by decide),
   (k8s_scale_spec envC7 "a" 150 "p").2 (Or.inr (Or.inl (by decide)))⟩

/-! ## C8: the ticket-status invariant -/

/-- Is the status one of the four enum values the source documents? -/
def validTicketStatus (s : String) : Bool :=
  s == "open" || s == "investigating" || s == "mitigated" || s == "resolved"

theorem k8s_scale_ticket (env : EnvState) (service : String) (replicas : Int) (ns : String) :
    (k8s_scale env service replicas ns).2.ticket = env.ticket := by
  unfold k8s_scale
  split
  · rfl
  · split <;> rfl

theorem k8s_restart_ticket (now : ℚ) (env : EnvState) (service ns : String) :
    (k8s_restart now env service ns).2.ticket = env.ticket := by
  unfold k8s_restart
  split <;> rfl

theorem feature_flag_set_ticket (env : EnvState) (flag : String) (enabled : Bool) :
    (feature_flag_set env flag enabled).2.ticket = env.ticket := rfl

theorem incident_log_ticket (now : ℚ) (env : EnvState) (message severity : String) :
    (incident_log now env message severity).2.ticket = env.ticket := by
  unfold incident_log
  split <;> rfl

theorem ticket_update_status (env : EnvState) (status note : String) :
    (ticket_update env status note).2.ticket = env.ticket
      ∨ validTicketStatus (ticket_update env status note).2.ticket.status = true := by
  unfold ticket_update
  split
  · left
    rfl
  · right
    rename_i h
    have h4 : status = "open" ∨ status = "investigating" ∨ status = "mitigated"
        ∨ status = "resolved" := by
      by_contra hc
      push_neg at hc
      exact h ⟨hc.1, hc.2.1, hc.2.2.1, hc.2.2.2⟩
    rcases h4 with h | h | h | h <;> simp [validTicketStatus, h]

theorem dynMetricsQuery_env (uniform : Int → String → ℚ → ℚ → ℚ) (env : EnvState)
    (service metric minutes ns : PyValue) :
    ∀ r, dynMetricsQuery uniform env service metric minutes ns = some r → r.2 = env := by
  intro r hr
  unfold dynMetricsQuery at hr
  repeat' split at hr
  all_goals first
    | (injection hr with h; subst h; rfl)
    | (injection hr)

theorem dynK8sScale_ticket (env : EnvState) (service replicas ns : PyValue) :
    ∀ r, dynK8sScale env service replicas ns = some r → r.2.ticket = env.ticket := by
  intro r hr
  unfold dynK8sScale at hr
  repeat' split at hr
  all_goals first
    | (injection hr with h; subst h; rfl)
    | (injection hr)

theorem dynK8sRestart_ticket (now : ℚ) (env : EnvState) (service ns : PyValue) :
    (dynK8sRestart now env service ns).2.ticket = env.ticket := by
  unfold dynK8sRestart
  repeat' split
  all_goals rfl

theorem dynFeatureFlagSet_ticket (env : EnvState) (flag enabled : PyValue) :
    (dynFeatureFlagSet env flag enabled).2.ticket = env.ticket := rfl

theorem dynIncidentLog_ticket (now : ℚ) (env : EnvState) (message severity : PyValue) :
    (dynIncidentLog now env message severity).2.ticket = env.ticket := by
  unfold dynIncidentLog
  repeat' split
  all_goals rfl

theorem dynTicketUpdate_status (env : EnvState) (status note : PyValue) :
    (dynTicketUpdate env status note).2.ticket = env.ticket
      ∨ validTicketStatus (dynTicketUpdate env status note).2.ticket.status = true := by
  unfold dynTicketUpdate
  split
  · split
    · left
      rfl
    · right
      rename_i st h
      have h4 : st = "open" ∨ st = "investigating" ∨ st = "mitigated"
          ∨ st = "resolved" := by
        by_contra hc
        push_neg at hc
        exact h ⟨hc.1, hc.2.1, hc.2.2.1, hc.2.2.2⟩
      rcases h4 with h | h | h | h <;> simp [validTicketStatus, h]
  · left
    rfl

theorem runTool_ticket_cases (uniform : Int → String → ℚ → ℚ → ℚ) (now : ℚ)
    (env : EnvState) (call : ToolCall) :
    ∀ r, runTool uniform now env call = some r →
      r.2.ticket = env.ticket ∨ validTicketStatus r.2.ticket.status = true := by
  intro r hr
  unfold runTool at hr
  by_cases h1 : call.name = "metrics_query"
  · rw [if_pos h1] at hr
    split at hr
    · split at hr
      · left
        rw [dynMetricsQuery_env uniform env _ _ _ _ r hr]
      · exact absurd hr (by simp)
    · exact absurd hr (by simp)
  · rw [if_neg h1] at hr
    by_cases h2 : call.name = "k8s_scale"
    · rw [if_pos h2] at hr
      split at hr
      · split at hr
        · left
          exact dynK8sScale_ticket env _ _ _ r hr
        · exact absurd hr (by simp)
      · exact absurd hr (by simp)
    · rw [if_neg h2] at hr
      by_cases h3 : call.name = "k8s_restart"
      · rw [if_pos h3] at hr
        split at hr
        · split at hr
          · injection hr with h
            subst h
            left
            rw [dynK8sRestart_ticket]
          · exact absurd hr (by simp)
        · exact absurd hr (by simp)
      · rw [if_neg h3] at hr
        by_cases h4 : call.name = "feature_flag_set"
        · rw [if_pos h4] at hr
          split at hr
          · split at hr
            · injection hr with h
              subst h
              left
              rw [dynFeatureFlagSet_ticket]
            · exact absurd hr (by simp)
          · exact absurd hr (by simp)
        · rw [if_neg h4] at hr
          by_cases h5 : call.name = "incident_log"
          · rw [if_pos h5] at hr
            split at hr
            · split at hr
              · injection hr with h
                subst h
                left
                rw [dynIncidentLog_ticket]
              · exact absurd hr (by simp)
            · exact absurd hr (by simp)
          · rw [if_neg h5] at hr
            by_cases h6 : call.name = "ticket_update"
            · rw [if_pos h6] at hr
              split at hr
              · split at hr
                · injection hr with h
                  subst h
                  exact dynTicketUpdate_status env _ _
                · exact absurd hr (by simp)
              · exact absurd hr (by simp)
            · rw [if_neg h6] at hr
              exact absurd hr (by simp)

theorem runTool_name_ne_ticket (uniform : Int → String → ℚ → ℚ → ℚ) (now : ℚ)
    (env : EnvState) (call : ToolCall) (hname : call.name ≠ "ticket_update") :
    ∀ r, runTool uniform now env call = some r → r.2.ticket = env.ticket := by
  intro r hr
  unfold runTool at hr
  by_cases h1 : call.name = "metrics_query"
  · rw [if_pos h1] at hr
    split at hr
    · split at hr
      · rw [dynMetricsQuery_env uniform env _ _ _ _ r hr]
      · exact absurd hr (by simp)
    · exact absurd hr (by simp)
  · rw [if_neg h1] at hr
    by_cases h2 : call.name = "k8s_scale"
    · rw [if_pos h2] at hr
      split at hr
      · split at hr
        · exact dynK8sScale_ticket env _ _ _ r hr
        · exact absurd hr (by simp)
      · exact absurd hr (by simp)
    · rw [if_neg h2] at hr
      by_cases h3 : call.name = "k8s_restart"
      · rw [if_pos h3] at hr
        split at hr
        · split at hr
          · injection hr with h
            subst h
            rw [dynK8sRestart_ticket]
          · exact absurd hr (by simp)
        · exact absurd hr (by simp)
      · rw [if_neg h3] at hr
        by_cases h4 : call.name = "feature_flag_set"
        · rw [if_pos h4] at hr
          split at hr
          · split at hr
            · injection hr with h
              subst h
              rw [dynFeatureFlagSet_ticket]
            · exact absurd hr (by simp)
          · exact absurd hr (by simp)
        · rw [if_neg h4] at hr
          by_cases h5 : call.name = "incident_log"
          · rw [if_pos h5] at hr
            split at hr
            · split at hr
              · injection hr with h
                subst h
                rw [dynIncidentLog_ticket]
              · exact absurd hr (by simp)
            · exact absurd hr (by simp)
          · rw [if_neg h5] at hr
            rw [if_neg hname] at hr
            exact absurd hr (by simp)

theorem exec_tool_ticket_cases (uniform : Int → String → ℚ → ℚ → ℚ) (now : ℚ)
    (env : EnvState) (call : ToolCall) :
    (exec_tool uniform now env call).2.ticket = env.ticket
      ∨ validTicketStatus (exec_tool uniform now env call).2.ticket.status = true := by
  unfold exec_tool
  by_cases hreg : toolNames.contains call.name
  · rw [if_pos hreg]
    cases hr : runTool uniform now env call with
    | none => left; rfl
    | some r => exact runTool_ticket_cases uniform now env call r hr
  · rw [if_neg hreg]
    left
    rfl

theorem exec_tool_ticket_frame (uniform : Int → String → ℚ → ℚ → ℚ) (now : ℚ)
    (env : EnvState) (call : ToolCall) (hname : call.name ≠ "ticket_update") :
    (exec_tool uniform now env call).2.ticket = env.ticket := by
  unfold exec_tool
  by_cases hreg : toolNames.contains call.name
  · rw [if_pos hreg]
    cases hr : runTool uniform now env call with
    | none => rfl
    | some r => exact runTool_name_ne_ticket uniform now env call hname r hr
  · rw [if_neg hreg]

theorem applyCalls_ticket_valid (uniform : Int → String → ℚ → ℚ → ℚ)
    (steps : List (ℚ × ToolCall)) :
    ∀ env : EnvState, validTicketStatus env.ticket.status = true →
      validTicketStatus (applyCalls uniform steps env).ticket.status = true := by
  induction steps with
  | nil => exact fun env h => h
  | cons st rest ih =>
    intro env h
    show validTicketStatus
      (applyCalls uniform rest (exec_tool uniform st.1 env st.2).2).ticket.status = true
    apply ih
    rcases exec_tool_ticket_cases uniform st.1 env st.2 with hsame | hval
    · rw [hsame]
      exact h
    · exact hval

theorem build_env_ticket (init : InitialState) :
    (build_env init).ticket
      = match init.ticket with
        | none => (⟨"open", .str ""⟩ : Ticket)
        | some ti => ⟨ti.status.getD "open", .str (ti.note.getD "")⟩ := rfl

/-- C8, amended.  Starting from any initial-state description whose optional
ticket status, when present, is one of the four enum values, every state
reachable through any sequence of dispatched tool calls keeps the ticket's
status in the enum, and no registry operation other than `ticket_update`
ever changes the ticket.  (`build_env` copies an initial status without
validating it, so the restriction on the initial description is necessary.) -/
theorem ticket_status_invariant (uniform : Int → String → ℚ → ℚ → ℚ)
    (init : InitialState) (steps : List (ℚ × ToolCall))
    (hinit : ∀ ti, init.ticket = some ti → ∀ s, ti.status = some s →
      validTicketStatus s = true) :
    validTicketStatus (applyCalls uniform steps (build_env init)).ticket.status = true
    ∧ ∀ (now : ℚ) (env : EnvState) (call : ToolCall), call.name ≠ "ticket_update" →
        (exec_tool uniform now env call).2.ticket = env.ticket := by
  constructor
  · apply applyCalls_ticket_valid
    rw [build_env_ticket]
    cases hti : init.ticket with
    | none => decide
    | some ti =>
      cases hts : ti.status with
      | none =>
        simp [hts]
        decide
      | some s =>
        simp only [hts, Option.getD_some]
        exact hinit ti hti s hts
  · exact fun now env call hname => exec_tool_ticket_frame uniform now env call hname

/-- An initial state carrying a ticket status outside the enum. -/
def initC8 : InitialState := { ticket := some { status := some "weird" } }

/-- C8 counterexample: `build_env` copies the invalid initial status `weird`
unvalidated, so the (trivially reachable) initial environment violates the
claimed enum invariant. -/
theorem ticket_status_counterexample :
    (build_env initC8).ticket.status = "weird"
      ∧ validTicketStatus (build_env initC8).ticket.status = false := by
  constructor
  · rfl
  · rfl

/-- Initial state and call sequence for the invariant witness. -/
def initC8w : InitialState :=
  { deployments := [⟨"a", "p", some 2⟩],
    ticket := some { status := some "investigating", note := some "n" } }

/-- A ticket update followed by a scale call. -/
def stepsC8w : List (ℚ × ToolCall) :=
  [(0, ⟨"ticket_update", [("status", .str "resolved"), ("note", .str "done")]⟩),
   (1, ⟨"k8s_scale", [("service", .str "a"), ("replicas", .int 5), ("namespace", .str "p")]⟩)]

theorem ticket_status_invariant_witness :
    validTicketStatus (applyCalls uniformW stepsC8w (build_env initC8w)).ticket.status = true
    ∧ ∀ (now : ℚ) (env : EnvState) (call : ToolCall), call.name ≠ "ticket_update" →
        (exec_tool uniformW now env call).2.ticket = env.ticket :=
  ticket_status_invariant uniformW initC8w stepsC8w
    (by
      intro ti hti s hts
      injection hti with h
      subst h
      injection hts with h2
      subst h2
      decide)

/-! ## C9: totality and error taxonomy of exec_tool -/

/-- C9, amended.  `exec_tool` is a total function into result records: an
unknown tool name yields a failure tagged `unknown tool`; any `TypeError` —
from binding the keywords (a missing or unexpected name) or raised inside
the tool body by a wrongly typed value — yields a failure whose message
starts with `argument error:`; in both cases the environment is untouched.
Otherwise the result is exactly the dispatched tool's, which may itself
fail (`invalid status: 123`) or succeed and mutate.  No registry tool
raises a non-`TypeError` exception on these argument values, so the
source's `runtime error:` branch is unreachable. -/
theorem exec_tool_classified (uniform : Int → String → ℚ → ℚ → ℚ) (now : ℚ)
    (env : EnvState) (call : ToolCall) :
    (toolNames.contains call.name = false →
      (exec_tool uniform now env call).1.ok = false
      ∧ (exec_tool uniform now env call).1.error = some ("unknown tool: " ++ call.name)
      ∧ (exec_tool uniform now env call).2 = env)
    ∧ (toolNames.contains call.name = true → runTool uniform now env call = none →
      (exec_tool uniform now env call).1.ok = false
      ∧ (∃ m, (exec_tool uniform now env call).1.error = some ("argument error: " ++ m))
      ∧ (exec_tool uniform now env call).2 = env)
    ∧ (∀ r, runTool uniform now env call = some r → toolNames.contains call.name = true →
      exec_tool uniform now env call = r) := by
  refine ⟨?_, ?_, ?_⟩
  · intro hq
    unfold exec_tool
    rw [hq]
    exact ⟨rfl, rfl, rfl⟩
  · intro hq hrun
    unfold exec_tool
    rw [hq, hrun]
    exact ⟨rfl, ⟨"bad arguments for " ++ call.name, rfl⟩, rfl⟩
  · intro r hrun hq
    unfold exec_tool
    rw [hq, hrun]
    rfl

/-- An environment for the dispatcher witness. -/
def envC9 : EnvState :=
  { deployments := [(("a", "p"), ⟨"a", "p", 2, none⟩)] }

/-- An unknown tool name. -/
def callUnknown : ToolCall := ⟨"bogus", []⟩

/-- A `k8s_scale` call missing its required arguments. -/
def callBadArgs : ToolCall := ⟨"k8s_scale", [("service", .str "a")]⟩

/-- A well-formed `ticket_update` call. -/
def callGood : ToolCall := ⟨"ticket_update", [("status", .str "resolved"), ("note", .str "ok")]⟩

theorem exec_tool_classified_witness :
    ((exec_tool uniformW 0 envC9 callUnknown).1.ok = false
      ∧ (exec_tool uniformW 0 envC9 callUnknown).1.error
          = some ("unknown tool: " ++ callUnknown.name)
      ∧ (exec_tool uniformW 0 envC9 callUnknown).2 = envC9)
    ∧ ((exec_tool uniformW 0 envC9 callBadArgs).1.ok = false
      ∧ (∃ m, (exec_tool uniformW 0 envC9 callBadArgs).1.error
            = some ("argument error: " ++ m))
      ∧ (exec_tool uniformW 0 envC9 callBadArgs).2 = envC9)
    ∧ exec_tool uniformW 0 envC9 callGood = ticket_update envC9 "resolved" "ok" :=
  ⟨(exec_tool_classified uniformW 0 envC9 callUnknown).1 (by decide),
   (exec_tool_classified uniformW 0 envC9 callBadArgs).2.1 (by decide) (by decide),
   (exec_tool_classified uniformW 0 envC9 callGood).2.2
     (ticket_update envC9 "resolved" "ok") (by decide) (by decide)⟩

/-- A `k8s_scale` call whose arguments bind by name but carry a string
replica count. -/
def callStrReplicas : ToolCall :=
  ⟨"k8s_scale", [("service", .str "a"), ("replicas", .str "5"), ("namespace", .str "p")]⟩

/-- C9 counterexample: the arguments of `callStrReplicas` bind to
`k8s_scale`'s parameters, and the failure arises inside the tool body
(Python raises `TypeError` comparing the string against a number), yet
`exec_tool` reports it as `argument error:` — not the `runtime error:`
class the claim assigns to exceptions raised inside a tool. -/
theorem exec_tool_runtime_error_counterexample :
    argNamesOk callStrReplicas.arguments ["service", "replicas", "namespace"] = true
    ∧ (exec_tool uniformW 0 envC9 callStrReplicas).1.ok = false
    ∧ (exec_tool uniformW 0 envC9 callStrReplicas).1.error
        = some ("argument error: bad arguments for k8s_scale")
    ∧ (exec_tool uniformW 0 envC9 callStrReplicas).2 = envC9 := by
  refine ⟨by decide, by decide, by decide, by decide⟩

/-! ## C10: build_env with duplicate deployment keys -/

/-- The last entry of the initial deployments list carrying key `k`. -/
def lastItemFor : List DepItem → (String × String) → Option DepItem
  | [], _ => none
  | it :: rest, k =>
    match lastItemFor rest k with
    | some r2 => some r2
    | none => if (it.service, it.nspace) = k then some it else none

theorem countKey_cons {κ α : Type} [DecidableEq κ] (p : κ × α) (rest : List (κ × α))
    (k2 : κ) :
    countKey (p :: rest) k2 = (if p.1 = k2 then 1 else 0) + countKey rest k2 := by
  by_cases hq : p.1 = k2 <;> simp [countKey, List.filter_cons, hq, Nat.add_comm]

theorem countKey_map_update {κ α : Type} [DecidableEq κ] (l : List (κ × α)) (k k2 : κ)
    (v : α) :
    countKey (l.map (fun p => if p.1 = k then (k, v) else p)) k2 = countKey l k2 := by
  induction l with
  | nil => rfl
  | cons p rest ih =>
    obtain ⟨pk, pv⟩ := p
    dsimp only [List.map_cons]
    by_cases hp : pk = k
    · subst hp
      rw [if_pos rfl]
      simp [countKey_cons, ih]
    · rw [if_neg hp]
      simp [countKey_cons, ih]

theorem countKey_append_single {κ α : Type} [DecidableEq κ] (l : List (κ × α)) (k k2 : κ)
    (v : α) :
    countKey (l ++ [(k, v)]) k2 = countKey l k2 + (if k2 = k then 1 else 0) := by
  induction l with
  | nil =>
    by_cases hq : k2 = k
    · subst hq
      simp [countKey_cons, countKey]
    · have hq2 : ¬ k = k2 := fun h => hq h.symm
      simp [countKey_cons, countKey, hq, hq2]
  | cons p rest ih =>
    rw [List.cons_append, countKey_cons, countKey_cons, ih, Nat.add_assoc]

theorem countKey_dictSet {κ α : Type} [DecidableEq κ] (l : List (κ × α)) (k k2 : κ)
    (v : α) :
    countKey (dictSet l k v) k2
      = if (dictGet l k).isSome then countKey l k2
        else countKey l k2 + (if k2 = k then 1 else 0) := by
  unfold dictSet
  by_cases hg : (dictGet l k).isSome
  · rw [if_pos hg, if_pos hg, countKey_map_update]
  · rw [if_neg hg, if_neg hg, countKey_append_single]

/-- Each key occurs in the list exactly as often as the dictionary model
says: once when present, never otherwise. -/
def dictUnique {κ α : Type} [DecidableEq κ] (l : List (κ × α)) : Prop :=
  ∀ k, countKey l k = if (dictGet l k).isSome then 1 else 0

theorem dictUnique_dictSet {κ α : Type} [DecidableEq κ] (l : List (κ × α)) (k0 : κ)
    (v : α) (h : dictUnique l) : dictUnique (dictSet l k0 v) := by
  intro k
  rw [countKey_dictSet]
  by_cases hg : (dictGet l k0).isSome
  · rw [if_pos hg]
    by_cases hk : k = k0
    · subst hk
      rw [dictGet_dictSet_self, h k, if_pos hg]
      rfl
    · rw [dictGet_dictSet_ne _ _ _ _ hk]
      exact h k
  · rw [if_neg hg]
    by_cases hk : k = k0
    · subst hk
      rw [dictGet_dictSet_self, h k, if_neg hg, if_pos rfl]
      rfl
    · rw [dictGet_dictSet_ne _ _ _ _ hk, if_neg hk, h k]
      rfl

/-- The deployment built from one initial-state deployment record. -/
def depOfItem (it : DepItem) : Deployment :=
  ⟨it.service, it.nspace, it.replicas.getD 1, none⟩

/-- One step of `build_env`'s deployment fold. -/
def depStep (l : List ((String × String) × Deployment)) (it : DepItem) :
    List ((String × String) × Deployment) :=
  dictSet l (it.service, it.nspace) (depOfItem it)

theorem build_env_deployments (init : InitialState) :
    (build_env init).deployments = init.deployments.foldl depStep [] := rfl

theorem depsFold_get (items : List DepItem) (k : String × String) :
    ∀ l, dictGet (items.foldl depStep l) k
      = match lastItemFor items k with
        | some it => some (depOfItem it)
        | none => dictGet l k := by
  induction items with
  | nil => intro l; rfl
  | cons it rest ih =>
    intro l
    rw [List.foldl_cons, ih]
    cases hlast : lastItemFor rest k with
    | some r2 => simp [lastItemFor, hlast]
    | none =>
      simp only [lastItemFor, hlast]
      by_cases hk : (it.service, it.nspace) = k
      · rw [if_pos hk]
        show dictGet (dictSet l (it.service, it.nspace) (depOfItem it)) k = some (depOfItem it)
        rw [← hk]
        exact dictGet_dictSet_self l _ _
      · rw [if_neg hk]
        show dictGet (dictSet l (it.service, it.nspace) (depOfItem it)) k = dictGet l k
        exact dictGet_dictSet_ne l _ _ _ (fun h => hk h.symm)

theorem depsFold_unique (items : List DepItem) :
    ∀ l, dictUnique l → dictUnique (items.foldl depStep l) := by
  induction items with
  | nil => exact fun l h => h
  | cons it rest ih =>
    intro l h
    rw [List.foldl_cons]
    exact ih _ (dictUnique_dictSet _ _ _ h)

/-- C10.  When the initial deployments list holds several entries with the
same (service, namespace) key, `build_env` produces exactly one deployment
under that key, carrying the replica count (default 1) of the last such
entry in list order. -/
theorem build_env_last_wins (init : InitialState) (k : String × String) (item : DepItem)
    (h : lastItemFor init.deployments k = some item) :
    dictGet (build_env init).deployments k
        = some ⟨item.service, item.nspace, item.replicas.getD 1, none⟩
    ∧ countKey (build_env init).deployments k = 1 := by
  have hget : dictGet (build_env init).deployments k = some (depOfItem item) := by
    rw [build_env_deployments, depsFold_get, h]
  constructor
  · exact hget
  · have hu : dictUnique (build_env init).deployments := by
      rw [build_env_deployments]
      exact depsFold_unique init.deployments [] (fun _ => rfl)
    rw [hu k, hget]
    rfl

/-- An initial state naming `("a", "p")` twice: first with 2 replicas, then
with 7. -/
def initC10 : InitialState :=
  { deployments := [⟨"a", "p", some 2⟩, ⟨"a", "p", some 7⟩, ⟨"b", "p", none⟩] }

theorem build_env_last_wins_witness :
    dictGet (build_env initC10).deployments ("a", "p") = some ⟨"a", "p", 7, none⟩
    ∧ countKey (build_env initC10).deployments ("a", "p") = 1 :=
  build_env_last_wins initC10 ("a", "p") ⟨"a", "p", some 7⟩ (by decide)
